import Mathlib

/-!
Verification development for the Foresight front end (press-and-hold
multimodal session controller).

The definitions below are a shallow embedding of the TypeScript sources:

* the identity service and API utilities (`createUser`, `saveUserId`,
  `getUserId` in the api utility module);
* the zustand session store (`handlePressStart`, `handlePressEnd` and the
  store press timer);
* the `CameraCapture` component (component press timer, touch-move scroll
  detection, `handleRecordingStart`/`handleRecordingStop`,
  `recorder.ondataavailable` with its stream-drain logic, and the 25 s
  image-upload interval effect);
* the `AudioPlayer` component (autoplay-unlock retry protocol).

Browser state (localStorage, timers, the MediaRecorder handle) is made
explicit as record fields; timer callbacks that close over stale render
values carry those captured values explicitly.  Asynchronous outcomes
(play blocked or allowed, upload succeeded or failed) are inputs to the
corresponding step functions.
-/

namespace Foresight

/-! ## Identity service (api utility module)

`localStorage` is modelled as an `Option String` cell holding the value
under the `sfhacks_user_id` key; the backend `/user/create` response is an
input parameter. -/

/-- Read the stored user id (getUserId in the api module). -/
def getUserId (storage : Option String) : Option String := storage

/-- Persist a user id (saveUserId in the api module). -/
def saveUserId (userId : String) (_storage : Option String) : Option String :=
  some userId

/-- createUser from the api module: return the stored id if present,
otherwise take the freshly created id from the backend, persist it and
return it.  Result is (returned id, storage afterwards). -/
def createUser (serverFreshId : String) (storage : Option String) :
    String × Option String :=
  match getUserId storage with
  | some existingUserId => (existingUserId, storage)
  | none => (serverFreshId, saveUserId serverFreshId storage)

/-! ## Recorder handle

The MediaRecorder handle: its device-level state plus instrumentation
counters recording how many times start and stop were invoked
successfully.  MediaRecorder.start throws when already recording and
MediaRecorder.stop throws when inactive; callers wrap both in try/catch. -/

inductive RecState where
  | inactive
  | recording
deriving DecidableEq, Repr

structure Recorder where
  recState : RecState
  startCount : Nat
  stopCount : Nat
deriving DecidableEq, Repr

/-! ## Combined session state

Fields of the zustand store (api store module), the refs and local state
of CameraCapture, and instrumentation for the external collaborators
(audio submission, image upload). -/

structure CCState where
  -- zustand store fields
  error : Option String
  statusMessage : String
  isRecording : Bool
  audioURL : Option String
  cameraReady : Bool
  isPressing : Bool
  mediaRecorder : Option Recorder
  hasUserInteracted : Bool
  /-- the store press timer (window.__pressTimerId): armed or not -/
  storePressTimer : Bool
  -- CameraCapture props, refs and local state
  isVideoStopped : Bool
  webcamPresent : Bool
  userId : Option String
  /-- audioChunksRef: byte sizes of the buffered audio chunks -/
  audioChunks : List Nat
  /-- pressTimerRef: the component press timer; carries the isPressing
  value captured by the setTimeout closure at the render that armed it -/
  pressTimerC : Option Bool
  touchStartPos : Option (Int × Int)
  isScrolling : Bool
  /-- imageUploadIntervalRef: period in ms when registered -/
  imageUploadInterval : Option Nat
  lastImageTime : Option Nat
  -- external collaborators (instrumentation)
  /-- number of clips handed to sendAudioPrompt -/
  submitCount : Nat
  /-- byte sizes of the clips handed to sendAudioPrompt -/
  submittedSizes : List Nat
  /-- number of frames handed to uploadImage successfully -/
  uploadCount : Nat
deriving DecidableEq, Repr

/-! ## Store press handlers (zustand store module)

handlePressStart: guarded by cameraReady and not isRecording; marks the
interaction, sets isPressing and arms a 500 ms timer whose callback reads
the store state fresh via get() when it fires. -/

/-- The store press-to-record delay in milliseconds. -/
def storePressDelayMs : Nat := 500

/-- handlePressStart from the store module (synchronous part: state
updates plus arming the 500 ms timer kept in window.__pressTimerId). -/
def handlePressStart (s : CCState) : CCState :=
  if s.cameraReady && !s.isRecording then
    { s with hasUserInteracted := true, isPressing := true,
             storePressTimer := true }
  else s

/-- The body of the store press timer: fires once, reads fresh state via
get(); if still pressing, not recording and a recorder handle exists,
start the recorder (try/catch around MediaRecorder.start). -/
def fireStorePressTimer (s : CCState) : CCState :=
  if s.storePressTimer then
    let s := { s with storePressTimer := false }
    if s.isPressing && !s.isRecording && s.mediaRecorder.isSome then
      match s.mediaRecorder with
      | some r =>
        if r.recState = RecState.recording then
          -- MediaRecorder.start throws on an active recorder; the catch
          -- branch reports the error
          { s with error := some "Failed to start recording",
                   statusMessage := "Recording error" }
        else
          { s with
              mediaRecorder := some { r with recState := RecState.recording,
                                             startCount := r.startCount + 1 },
              isRecording := true,
              statusMessage := "Recording audio...",
              audioURL := some "" }
      | none => s
    else s
  else s

/-- handlePressEnd from the store module: drop isPressing, clear the store
press timer, and if recording ask the recorder to stop (try/catch around
MediaRecorder.stop); isRecording is deliberately left true on the success
path — it is cleared later by ondataavailable. -/
def handlePressEnd (s : CCState) : CCState :=
  let s' := { s with isPressing := false, storePressTimer := false }
  if s.isRecording && s.mediaRecorder.isSome then
    match s'.mediaRecorder with
    | some r =>
      if r.recState = RecState.recording then
        { s' with
            mediaRecorder := some { r with recState := RecState.inactive,
                                           stopCount := r.stopCount + 1 },
            statusMessage := "Processing audio..." }
      else
        -- MediaRecorder.stop throws on an inactive recorder
        { s' with isRecording := false,
                  error := some "Failed to stop recording",
                  statusMessage := "Recording error" }
    | none => s'
  else s'

/-! ## CameraCapture recording handlers -/

/-- handleRecordingStart from CameraCapture: guarded by the presence of a
recorder handle and not already recording; clears the previous response
audio URL, starts the recorder (try/catch) and sets the recording flag. -/
def handleRecordingStart (s : CCState) : CCState :=
  if s.mediaRecorder.isSome && !s.isRecording then
    match s.mediaRecorder with
    | some r =>
      let s := { s with audioURL := some "" }
      if r.recState = RecState.recording then
        { s with error := some "Failed to start recording" }
      else
        { s with
            mediaRecorder := some { r with recState := RecState.recording,
                                           startCount := r.startCount + 1 },
            isRecording := true,
            statusMessage := "Listening... Release to process." }
    | none => s
  else s

/-- handleRecordingStop from CameraCapture: if a recorder handle exists
and recording is flagged, request device-level stop (try/catch); the
recording flag is not touched here. -/
def handleRecordingStop (s : CCState) : CCState :=
  if s.mediaRecorder.isSome && s.isRecording then
    match s.mediaRecorder with
    | some r =>
      if r.recState = RecState.recording then
        { s with
            mediaRecorder := some { r with recState := RecState.inactive,
                                           stopCount := r.stopCount + 1 },
            statusMessage := "Processing your request..." }
      else
        { s with error := some "Failed to stop recording" }
    | none => s
  else s

/-! ## CameraCapture press surface handlers

handlePress arms a second 500 ms timer at the component level.  Its
setTimeout closure reads the isPressing value of the render in which it
was created (necessarily false, because of the guard), while
isScrollingRef is a ref and is read fresh at fire time. -/

/-- The component press-to-record delay in milliseconds. -/
def componentPressDelayMs : Nat := 500

/-- handlePress from CameraCapture: on a fresh contact record the start
position, reset the scrolling flag, delegate to the store handlePressStart
and arm the component press timer, capturing the render value of
isPressing in its closure. -/
def handlePress (pos : Int × Int) (s : CCState) : CCState :=
  if !s.isPressing then
    let captured := s.isPressing
    let s := { s with isScrolling := false, touchStartPos := some pos }
    let s := handlePressStart s
    { s with pressTimerC := some captured }
  else s

/-- The body of the component press timer: fires once; proceeds to
handleRecordingStart only when the captured isPressing was true and the
scrolling ref is clear. -/
def fireComponentPressTimer (s : CCState) : CCState :=
  match s.pressTimerC with
  | some capturedPressing =>
    let s := { s with pressTimerC := none }
    if capturedPressing && !s.isScrolling then handleRecordingStart s else s
  | none => s

/-- handleTouchMove from CameraCapture: when a press is in progress,
compare the contact position with the stored start position; past the
10-unit threshold mark scrolling and, only when no recording is active
yet, cancel the component press timer and reset the press state through
the store handlePressEnd. -/
def handleTouchMove (pos : Int × Int) (s : CCState) : CCState :=
  if s.isVideoStopped then s
  else
    match s.touchStartPos with
    | some startPos =>
      if s.isPressing then
        let deltaX := (pos.1 - startPos.1).natAbs
        let deltaY := (pos.2 - startPos.2).natAbs
        let scrollThreshold : Nat := 10
        if deltaX > scrollThreshold || deltaY > scrollThreshold then
          let s := { s with isScrolling := true }
          if !s.isRecording then
            handlePressEnd { s with pressTimerC := none }
          else s
        else s
      else s
    | none => s

/-- handlePressRelease from CameraCapture: clear the start position and
the component press timer, stop the recorder when recording, then reset
the press state through the store handlePressEnd. -/
def handlePressRelease (s : CCState) : CCState :=
  if s.isVideoStopped then s
  else
    let s := { s with touchStartPos := none, pressTimerC := none }
    let s := if s.isRecording then handleRecordingStop s else s
    handlePressEnd s

/-! ## recorder.ondataavailable (CameraCapture)

One data event from the capture device: the chunk is appended to
audioChunksRef; only when the recorder reports the inactive state is the
clip assembled from all buffered chunks, the recording flag dropped, the
chunk list cleared and the clip handed to sendAudioPrompt.  The response
pipeline that follows the submission (generateSpeech and the stream
drain) is modelled separately below as materializeSpeech. -/

/-- ondataavailable from CameraCapture, up to and including the clip
submission.  dataSize is e.data.size; chunk sizes stand in for the opaque
byte buffers. -/
def onDataAvailable (dataSize : Nat) (s : CCState) : CCState :=
  if dataSize > 0 then
    let s := { s with audioChunks := s.audioChunks ++ [dataSize] }
    match s.mediaRecorder with
    | some r =>
      if r.recState = RecState.inactive then
        let blobSize := s.audioChunks.sum
        let s := { s with isRecording := false, audioChunks := [],
                          statusMessage := "Processing your question..." }
        match s.userId with
        | some _ =>
          { s with submitCount := s.submitCount + 1,
                   submittedSizes := s.submittedSizes ++ [blobSize] }
        | none => s
      else s
    | none => s
  else s

/-! ## Speech response stream drain (CameraCapture / ChatInterface)

The ReadableStream branch: all chunks are read until done, then — when at
least one chunk arrived — a Uint8Array of the summed length is allocated
and each chunk is copied in at its running offset; a zero-chunk stream
throws a defined error.  Bytes are Nat values, a Uint8Array is a list. -/

/-- Copy one chunk into the backing array starting at the given offset
(the allChunks.set call). -/
def writeChunkAt : List Nat → Nat → List Nat → List Nat
  | arr, _, [] => arr
  | arr, pos, b :: rest => writeChunkAt (arr.set pos b) (pos + 1) rest

/-- The copy loop: each chunk is written at the running position, which
advances by the chunk length. -/
def copyChunks : List (List Nat) → List Nat → Nat → List Nat
  | [], arr, _ => arr
  | c :: rest, arr, pos => copyChunks rest (writeChunkAt arr pos c) (pos + c.length)

/-- Materialize the drained stream into one playable asset: with at least
one chunk, allocate Uint8Array(totalLength) and copy every chunk in; with
no chunks, throw the empty-response error. -/
def materializeSpeech (chunks : List (List Nat)) : Except String (List Nat) :=
  if chunks.length > 0 then
    let totalLength := (chunks.map List.length).sum
    let allChunks := copyChunks chunks (List.replicate totalLength 0) 0
    Except.ok allChunks
  else Except.error "No audio data received from stream"

/-! ## Image-upload interval effect (CameraCapture)

The effect arms a 25 s interval while the camera is ready, a user id
exists and the webcam ref is live; the isVideoStopped branch and the
effect cleanup both clear it.  The tick body never touches the interval
registration. -/

/-- The frame sampling period in milliseconds. -/
def imageUploadPeriodMs : Nat := 25000

/-- The interval effect body: on isVideoStopped clear any registered
interval; otherwise register the 25 s interval when camera, user id and
webcam are all available. -/
def uploadEffectSetup (s : CCState) : CCState :=
  if s.isVideoStopped then
    if s.imageUploadInterval.isSome then
      { s with imageUploadInterval := none,
               statusMessage := "Video feed paused. Analysis suspended." }
    else s
  else if s.cameraReady && s.userId.isSome && s.webcamPresent then
    { s with statusMessage := "Visual analysis system activated",
             imageUploadInterval := some imageUploadPeriodMs }
  else s

/-- The effect cleanup: clear the interval if registered. -/
def uploadEffectCleanup (s : CCState) : CCState :=
  if s.imageUploadInterval.isSome then
    { s with imageUploadInterval := none,
             statusMessage := "Visual analysis paused" }
  else s

/-- One tick of the image-upload interval.  hasFrame: getScreenshot
returned a frame; prepOk: the fetch/blob conversion succeeded; uploadOk:
uploadImage succeeded; now: the timestamp recorded in lastImageTime.
Every failure branch only reports status or error text. -/
def uploadTick (hasFrame prepOk uploadOk : Bool) (now : Nat) (s : CCState) :
    CCState :=
  if !s.webcamPresent || s.userId.isNone then s
  else if hasFrame then
    if prepOk then
      let s := { s with statusMessage := "Analyzing visual context...",
                        lastImageTime := some now }
      if uploadOk then
        { s with uploadCount := s.uploadCount + 1,
                 statusMessage := "Visual analysis complete" }
      else
        { s with error := some "Upload error",
                 statusMessage := "Analysis interrupted. Resuming..." }
    else
      { s with error := some "Image preparation error",
               statusMessage :=
                 "Visual processing error. Reestablishing connection..." }
  else
    { s with statusMessage := "Camera feed disrupted. Reconnecting..." }

/-! ## AudioPlayer autoplay-unlock protocol

From the AudioPlayer component: a new audio URL resets the attempt
counter and the played flag; the canplay handler makes a first autoplay
attempt and arms a 1 s retry interval; each attempt that the browser
blocks lands in the play() promise catch, which counts the failure, sets
the press-to-play error text on the fourth failure and clears the retry
interval once five attempts have failed.  Whether the browser blocks
play() is an input.  Volume is modelled in hundredths of the element
volume. -/

structure PlayerState where
  /-- autoplayAttemptsRef -/
  attempts : Nat
  /-- hasAutoPlayedRef -/
  hasAutoPlayed : Bool
  /-- autoplayIntervalRef: retry period in ms when registered -/
  autoplayInterval : Option Nat
  errorMsg : Option String
  isPlaying : Bool
  muted : Bool
  volume : Nat
deriving DecidableEq, Repr

/-- The autoplay retry spacing in milliseconds (the setInterval period). -/
def autoplayRetryPeriodMs : Nat := 1000

/-- The press-to-play error text set when autoplay keeps failing. -/
def autoplayBlockedMsg : String := "Auto-play blocked. Click play to listen."

/-- attemptAutoplay from AudioPlayer, with the play() promise resolved:
mute and zero the volume, try to play; on success record the played flag,
unmute with the volume ramp and clear the retry interval; on failure
restore the volume, count the attempt, surface the press-to-play text on
the fourth failure and clear the retry interval from the fifth failure
on. -/
def attemptAutoplay (blocked : Bool) (p : PlayerState) : PlayerState :=
  let p := { p with muted := true, volume := 0 }
  if blocked then
    let a := p.attempts + 1
    if a < 5 && !p.hasAutoPlayed then
      { p with attempts := a, volume := 100,
               errorMsg := if a = 4 then some autoplayBlockedMsg
                           else p.errorMsg }
    else
      { p with attempts := a, volume := 100, autoplayInterval := none }
  else
    { p with hasAutoPlayed := true, isPlaying := true, muted := false,
             volume := 100, autoplayInterval := none }

/-- The canplay handler: if no successful play has happened for this
asset, arm the 1 s retry interval (when not already armed) and make the
first autoplay attempt. -/
def onCanPlay (blocked : Bool) (p : PlayerState) : PlayerState :=
  if !p.hasAutoPlayed then
    let p :=
      if p.autoplayInterval.isNone then
        { p with autoplayInterval := some autoplayRetryPeriodMs }
      else p
    attemptAutoplay blocked p
  else p

/-- One retry-interval tick: retry only while no success and fewer than
five attempts; otherwise unregister the interval. -/
def intervalTick (blocked : Bool) (p : PlayerState) : PlayerState :=
  match p.autoplayInterval with
  | some _ =>
    if !p.hasAutoPlayed && p.attempts < 5 then attemptAutoplay blocked p
    else { p with autoplayInterval := none }
  | none => p

/-- togglePlayback from AudioPlayer: pause when playing; otherwise clear
the error and play in response to the user gesture. -/
def togglePlayback (blocked : Bool) (p : PlayerState) : PlayerState :=
  if p.isPlaying then { p with isPlaying := false }
  else
    let p := { p with errorMsg := none }
    if blocked then { p with errorMsg := some "Playback error" }
    else { p with isPlaying := true, hasAutoPlayed := true }

/-- The new-audio-URL effect: reset the attempt counter and the played
flag, clear any retry interval, load the element muted and stopped. -/
def resetPlayer (p : PlayerState) : PlayerState :=
  { p with attempts := 0, hasAutoPlayed := false, autoplayInterval := none,
           isPlaying := false, muted := true }

/-- An observable event during one asset lifetime after canplay: a retry
tick or a manual transport press, each with the browser verdict on
play(). -/
inductive PEvent where
  | tick (blocked : Bool)
  | manual (blocked : Bool)
deriving DecidableEq, Repr

def stepPlayer : PEvent → PlayerState → PlayerState
  | PEvent.tick b, p => intervalTick b p
  | PEvent.manual b, p => togglePlayback b p

def runPlayer : List PEvent → PlayerState → PlayerState
  | [], p => p
  | e :: evs, p => runPlayer evs (stepPlayer e p)

/-- One asset lifetime: the reset effect for the new URL, the canplay
handler (with the browser verdict on the first attempt), then any
sequence of retry ticks and manual presses. -/
def runAsset (first : Bool) (evs : List PEvent) (p : PlayerState) :
    PlayerState :=
  runPlayer evs (onCanPlay first (resetPlayer p))

/-- A concrete fresh player. -/
def initialPlayer : PlayerState :=
  { attempts := 0, hasAutoPlayed := false, autoplayInterval := none,
    errorMsg := none, isPlaying := false, muted := false, volume := 100 }

/-- The always-blocked lifetime: blocked first attempt and four blocked
retry ticks. -/
def blockedRun : PlayerState :=
  runAsset true (List.replicate 4 (PEvent.tick true)) initialPlayer

/-- A concrete idle session state: camera ready, recorder handle open and
inactive, nothing pressed or recording. -/
def sampleIdle : CCState :=
  { error := none, statusMessage := "Camera ready", isRecording := false,
    audioURL := none, cameraReady := true, isPressing := false,
    mediaRecorder := some { recState := RecState.inactive, startCount := 0,
                            stopCount := 0 },
    hasUserInteracted := false, storePressTimer := false,
    isVideoStopped := false, webcamPresent := true, userId := some "u1",
    audioChunks := [], pressTimerC := none, touchStartPos := none,
    isScrolling := false, imageUploadInterval := none, lastImageTime := none,
    submitCount := 0, submittedSizes := [], uploadCount := 0 }

/-- A concrete state mid-recording: recorder active, one 3-byte chunk
buffered. -/
def sampleActive : CCState :=
  { sampleIdle with
      isRecording := true,
      mediaRecorder := some { recState := RecState.recording, startCount := 1,
                              stopCount := 0 },
      audioChunks := [3] }

/-- A concrete state mid-press before the timers fire. -/
def samplePressed : CCState :=
  { sampleIdle with
      isPressing := true, hasUserInteracted := true,
      storePressTimer := true, pressTimerC := some false,
      touchStartPos := some (0, 0) }

/-! ## Theorems -/

/-- C1: a pointer interaction held past the 500 ms press delay with no
scroll-cancellation and no recording already active arms the 500 ms press
timer, and once the press timers fire exactly one recording session
becomes active: the media recorder is started exactly once (its start
counter rises by exactly one) and the recording flag becomes true.  The
component-level timer closure captured isPressing from the render before
the press and therefore contributes no second start. -/
theorem hold_confirmed_starts_single_recording
    (s : CCState) (pos : Int × Int) (r : Recorder)
    (hcam : s.cameraReady = true) (hrec : s.isRecording = false)
    (hpress : s.isPressing = false) (hmr : s.mediaRecorder = some r)
    (hinact : r.recState = RecState.inactive) :
    storePressDelayMs = 500 ∧
    (handlePress pos s).storePressTimer = true ∧
    (fireComponentPressTimer (fireStorePressTimer (handlePress pos s))).isRecording
      = true ∧
    (fireComponentPressTimer (fireStorePressTimer (handlePress pos s))).mediaRecorder
      = some { r with recState := RecState.recording,
                      startCount := r.startCount + 1 } := by
  simp [handlePress, handlePressStart, fireStorePressTimer,
        fireComponentPressTimer, storePressDelayMs, hcam, hrec, hpress, hmr,
        hinact]

/-- C1 witness: the hold scenario on the concrete idle state. -/
theorem hold_confirmed_starts_single_recording_witness :
    storePressDelayMs = 500 ∧
    (handlePress (0, 0) sampleIdle).storePressTimer = true ∧
    (fireComponentPressTimer (fireStorePressTimer
        (handlePress (0, 0) sampleIdle))).isRecording = true ∧
    (fireComponentPressTimer (fireStorePressTimer
        (handlePress (0, 0) sampleIdle))).mediaRecorder
      = some { recState := RecState.recording, startCount := 1,
               stopCount := 0 } :=
  hold_confirmed_starts_single_recording sampleIdle (0, 0)
    { recState := RecState.inactive, startCount := 0, stopCount := 0 }
    rfl rfl rfl rfl rfl

/-- C7: at most one recording session is active: invoking
handleRecordingStart while the recording flag is already true, or while no
recorder handle exists, is a no-op that changes no state; likewise the
store press timer firing in that situation starts no second capture. -/
theorem recording_start_noop_when_active
    (s : CCState) (h : s.isRecording = true ∨ s.mediaRecorder = none) :
    handleRecordingStart s = s ∧
    (fireStorePressTimer s).mediaRecorder = s.mediaRecorder ∧
    (fireStorePressTimer s).isRecording = s.isRecording := by
  rcases h with h | h <;>
    simp [handleRecordingStart, fireStorePressTimer, h] <;>
    split <;> simp [h]

/-- C7 witness: starting while already recording is a no-op on a concrete
active state. -/
theorem recording_start_noop_when_active_witness :
    handleRecordingStart { sampleIdle with isRecording := true }
      = { sampleIdle with isRecording := true } ∧
    (fireStorePressTimer { sampleIdle with isRecording := true }).mediaRecorder
      = { sampleIdle with isRecording := true }.mediaRecorder ∧
    (fireStorePressTimer { sampleIdle with isRecording := true }).isRecording
      = { sampleIdle with isRecording := true }.isRecording :=
  recording_start_noop_when_active { sampleIdle with isRecording := true }
    (Or.inl rfl)

/-- C10: the store handlePressStart takes effect only when the camera is
ready and no recording is active; otherwise it returns with no state
change at all — pressing stays as it was, hasUserInteracted is not set
and no press timer is armed. -/
theorem press_start_guard_frame
    (s : CCState) (h : ¬(s.cameraReady = true ∧ s.isRecording = false)) :
    handlePressStart s = s := by
  have hg : (s.cameraReady && !s.isRecording) = false := by
    cases hc : s.cameraReady <;> cases hr : s.isRecording <;> simp_all
  simp [handlePressStart, hg]

/-- C10 witness: press start with the camera not ready on a concrete
state. -/
theorem press_start_guard_frame_witness :
    handlePressStart { sampleIdle with cameraReady := false }
      = { sampleIdle with cameraReady := false } :=
  press_start_guard_frame { sampleIdle with cameraReady := false }
    (by simp)

/-- C2: releasing the hold (handlePressEnd) requests device finalization
but does not itself clear the recording flag, the chunk buffer or the
submission log; only the asynchronous data event that arrives with the
recorder reporting the inactive state clears the flag, empties the chunk
list and hands the assembled clip to the audio-submission collaborator
exactly once; a chunk arriving while the recorder is still active neither
clears the flag nor submits. -/
theorem stop_finalizes_asynchronously
    (s : CCState) (r : Recorder) (dataSize : Nat)
    (hrec : s.isRecording = true) (hmr : s.mediaRecorder = some r)
    (hactive : r.recState = RecState.recording) (huid : s.userId.isSome)
    (hsize : 0 < dataSize) :
    (handlePressEnd s).isRecording = true ∧
    (handlePressEnd s).audioChunks = s.audioChunks ∧
    (handlePressEnd s).submitCount = s.submitCount ∧
    (onDataAvailable dataSize (handlePressEnd s)).isRecording = false ∧
    (onDataAvailable dataSize (handlePressEnd s)).audioChunks = [] ∧
    (onDataAvailable dataSize (handlePressEnd s)).submitCount
      = s.submitCount + 1 ∧
    (onDataAvailable dataSize (handlePressEnd s)).submittedSizes
      = s.submittedSizes ++ [(s.audioChunks ++ [dataSize]).sum] ∧
    (onDataAvailable dataSize s).isRecording = s.isRecording ∧
    (onDataAvailable dataSize s).submitCount = s.submitCount ∧
    (onDataAvailable dataSize s).audioChunks = s.audioChunks ++ [dataSize] := by
  obtain ⟨uid, huid⟩ := Option.isSome_iff_exists.mp huid
  simp [handlePressEnd, onDataAvailable, hrec, hmr, hactive, huid, hsize]

/-- C2 witness: release then final data chunk on the concrete active
state. -/
theorem stop_finalizes_asynchronously_witness :
    (handlePressEnd sampleActive).isRecording = true ∧
    (handlePressEnd sampleActive).audioChunks = sampleActive.audioChunks ∧
    (handlePressEnd sampleActive).submitCount = sampleActive.submitCount ∧
    (onDataAvailable 7 (handlePressEnd sampleActive)).isRecording = false ∧
    (onDataAvailable 7 (handlePressEnd sampleActive)).audioChunks = [] ∧
    (onDataAvailable 7 (handlePressEnd sampleActive)).submitCount
      = sampleActive.submitCount + 1 ∧
    (onDataAvailable 7 (handlePressEnd sampleActive)).submittedSizes
      = sampleActive.submittedSizes ++ [(sampleActive.audioChunks ++ [7]).sum] ∧
    (onDataAvailable 7 sampleActive).isRecording = sampleActive.isRecording ∧
    (onDataAvailable 7 sampleActive).submitCount = sampleActive.submitCount ∧
    (onDataAvailable 7 sampleActive).audioChunks
      = sampleActive.audioChunks ++ [7] :=
  stop_finalizes_asynchronously sampleActive
    { recState := RecState.recording, startCount := 1, stopCount := 0 }
    7 rfl rfl rfl (by decide) (by decide)

/-- C4: a touch that moves past the 10-unit threshold while pressing and
before any recording is active cancels both pending press timers, drops
the pressing flag and leaves the recorder untouched, so no recording can
start for that interaction (both timer firings are now no-ops); the same
movement while a recording is active only marks scrolling and leaves the
recording running. -/
theorem scroll_cancels_pending_press
    (s : CCState) (pos q : Int × Int)
    (hstop : s.isVideoStopped = false) (hpos : s.touchStartPos = some q)
    (hpress : s.isPressing = true)
    (hmove : 10 < (pos.1 - q.1).natAbs ∨ 10 < (pos.2 - q.2).natAbs) :
    (s.isRecording = false →
      (handleTouchMove pos s).isPressing = false ∧
      (handleTouchMove pos s).pressTimerC = none ∧
      (handleTouchMove pos s).storePressTimer = false ∧
      (handleTouchMove pos s).mediaRecorder = s.mediaRecorder ∧
      (handleTouchMove pos s).isRecording = false ∧
      fireStorePressTimer (handleTouchMove pos s) = handleTouchMove pos s ∧
      fireComponentPressTimer (handleTouchMove pos s)
        = handleTouchMove pos s) ∧
    (s.isRecording = true →
      (handleTouchMove pos s).isRecording = true ∧
      (handleTouchMove pos s).mediaRecorder = s.mediaRecorder ∧
      (handleTouchMove pos s).isScrolling = true) := by
  constructor <;> intro hr <;> rcases hmove with hm | hm <;>
    simp [handleTouchMove, handlePressEnd, fireStorePressTimer,
          fireComponentPressTimer, hstop, hpos, hpress, hm, hr]

/-- C4 witness: a 20-unit horizontal move on the concrete mid-press
state. -/
theorem scroll_cancels_pending_press_witness :
    (samplePressed.isRecording = false →
      (handleTouchMove (20, 0) samplePressed).isPressing = false ∧
      (handleTouchMove (20, 0) samplePressed).pressTimerC = none ∧
      (handleTouchMove (20, 0) samplePressed).storePressTimer = false ∧
      (handleTouchMove (20, 0) samplePressed).mediaRecorder
        = samplePressed.mediaRecorder ∧
      (handleTouchMove (20, 0) samplePressed).isRecording = false ∧
      fireStorePressTimer (handleTouchMove (20, 0) samplePressed)
        = handleTouchMove (20, 0) samplePressed ∧
      fireComponentPressTimer (handleTouchMove (20, 0) samplePressed)
        = handleTouchMove (20, 0) samplePressed) ∧
    (samplePressed.isRecording = true →
      (handleTouchMove (20, 0) samplePressed).isRecording = true ∧
      (handleTouchMove (20, 0) samplePressed).mediaRecorder
        = samplePressed.mediaRecorder ∧
      (handleTouchMove (20, 0) samplePressed).isScrolling = true) :=
  scroll_cancels_pending_press samplePressed (20, 0) (0, 0)
    rfl rfl rfl (Or.inl (by decide))

/-- Writing a chunk into the backing array never changes its length. -/
theorem writeChunkAt_length (c : List Nat) (arr : List Nat) (pos : Nat) :
    (writeChunkAt arr pos c).length = arr.length := by
  induction c generalizing arr pos with
  | nil => rfl
  | cons b rest ih => simp [writeChunkAt, ih]

/-- The chunk copy loop never changes the backing array length. -/
theorem copyChunks_length (cs : List (List Nat)) (arr : List Nat) (pos : Nat) :
    (copyChunks cs arr pos).length = arr.length := by
  induction cs generalizing arr pos with
  | nil => rfl
  | cons c rest ih => simp [copyChunks, ih, writeChunkAt_length]

/-- C5: draining a streamed synthesis response of N chunks and
materializing the asset yields, for N at least 1, one asset whose byte
length is the sum of the chunk byte sizes; a zero-chunk stream yields the
defined empty-response error rather than an asset. -/
theorem stream_drain_preserves_length (chunks : List (List Nat)) :
    (chunks ≠ [] →
      ∃ bytes, materializeSpeech chunks = Except.ok bytes ∧
        bytes.length = (chunks.map List.length).sum) ∧
    materializeSpeech [] = Except.error "No audio data received from stream"
    := by
  constructor
  · intro h
    have hp : 0 < chunks.length := List.length_pos.mpr h
    refine ⟨copyChunks chunks
      (List.replicate ((chunks.map List.length).sum) 0) 0, ?_, ?_⟩
    · simp [materializeSpeech, hp]
    · rw [copyChunks_length, List.length_replicate]
  · rfl

/-- C5 witness: a two-chunk stream of sizes 2 and 1. -/
theorem stream_drain_preserves_length_witness :
    (([[1, 2], [3]] : List (List Nat)) ≠ [] ∧
      ∃ bytes, materializeSpeech [[1, 2], [3]] = Except.ok bytes ∧
        bytes.length = ([[1, 2], [3]].map List.length).sum) ∧
    materializeSpeech [] = Except.error "No audio data received from stream"
    :=
  ⟨⟨by decide, (stream_drain_preserves_length [[1, 2], [3]]).1 (by decide)⟩,
   (stream_drain_preserves_length [[1, 2], [3]]).2⟩

/-- C8: the frame-sampling loop teardown is idempotent: clearing the
image-upload interval twice (whether through the effect cleanup or the
video-stopped branch) equals clearing it once, no timer remains
registered afterwards, and no new timer is ever created by a stop. -/
theorem upload_loop_stop_idempotent (s : CCState) :
    uploadEffectCleanup (uploadEffectCleanup s) = uploadEffectCleanup s ∧
    (uploadEffectCleanup s).imageUploadInterval = none ∧
    uploadEffectSetup (uploadEffectSetup { s with isVideoStopped := true })
      = uploadEffectSetup { s with isVideoStopped := true } ∧
    (uploadEffectSetup { s with isVideoStopped := true }).imageUploadInterval
      = none := by
  unfold uploadEffectCleanup uploadEffectSetup
  cases h : s.imageUploadInterval <;> simp [h]

/-- C9: createUser is idempotent and persistent: an already-stored id is
returned unchanged with the storage untouched, after any successful call
the stored id equals the returned id, and two successive calls return the
same id. -/
theorem createUser_idempotent_persistent (id1 id2 : String)
    (storage : Option String) :
    (∀ uid, storage = some uid → createUser id1 storage = (uid, storage)) ∧
    (createUser id1 storage).2 = some (createUser id1 storage).1 ∧
    (createUser id2 (createUser id1 storage).2).1
      = (createUser id1 storage).1 := by
  cases storage <;> simp [createUser, getUserId, saveUserId]

/-- C9 witness: a stored id is returned as is; a fresh id is persisted
and repeated. -/
theorem createUser_idempotent_persistent_witness :
    createUser "n1" (some "abc") = ("abc", some "abc") ∧
    (createUser "n1" (none : Option String)).2
      = some (createUser "n1" (none : Option String)).1 ∧
    (createUser "n2" (createUser "n1" (none : Option String)).2).1
      = (createUser "n1" (none : Option String)).1 :=
  ⟨(createUser_idempotent_persistent "n1" "n2" (some "abc")).1 "abc" rfl,
   (createUser_idempotent_persistent "n1" "n2" none).2.1,
   (createUser_idempotent_persistent "n1" "n2" none).2.2⟩

/-- An autoplay attempt raises the attempt counter by at most one. -/
theorem attempts_attemptAutoplay_le (b : Bool) (p : PlayerState) :
    (attemptAutoplay b p).attempts ≤ p.attempts + 1 := by
  cases b <;> simp [attemptAutoplay]
  split <;> simp

/-- Manual transport never touches the attempt counter. -/
theorem attempts_togglePlayback (b : Bool) (p : PlayerState) :
    (togglePlayback b p).attempts = p.attempts := by
  cases b <;> simp [togglePlayback] <;> split <;> rfl

/-- Any retry tick or manual press keeps the attempt counter within the
five-attempt bound. -/
theorem attempts_stepPlayer_le (e : PEvent) (p : PlayerState)
    (h : p.attempts ≤ 5) : (stepPlayer e p).attempts ≤ 5 := by
  cases e with
  | tick b =>
    simp only [stepPlayer, intervalTick]
    cases hI : p.autoplayInterval with
    | none => exact h
    | some n =>
      by_cases hg : (!p.hasAutoPlayed && decide (p.attempts < 5)) = true
      · have h5 : p.attempts < 5 := by
          rw [Bool.and_eq_true] at hg
          exact of_decide_eq_true hg.2
        have := attempts_attemptAutoplay_le b p
        simp only [hg, if_true]
        omega
      · simp only [hg, if_false]
        exact h
  | manual b =>
    simpa [stepPlayer, attempts_togglePlayback] using h

/-- Running any event sequence preserves the five-attempt bound. -/
theorem attempts_runPlayer_le (evs : List PEvent) (p : PlayerState)
    (h : p.attempts ≤ 5) : (runPlayer evs p).attempts ≤ 5 := by
  induction evs generalizing p with
  | nil => exact h
  | cons e evs ih => exact ih _ (attempts_stepPlayer_le e p h)

/-- The canplay handler raises the attempt counter by at most one. -/
theorem attempts_onCanPlay_le (b : Bool) (p : PlayerState) :
    (onCanPlay b p).attempts ≤ p.attempts + 1 := by
  unfold onCanPlay
  by_cases hA : p.hasAutoPlayed <;> simp [hA]
  by_cases hI : p.autoplayInterval = none <;> simp only [hI, if_true, if_false]
  · exact attempts_attemptAutoplay_le b _
  · exact attempts_attemptAutoplay_le b p

/-- An asset lifetime never exceeds five automatic attempts. -/
theorem runAsset_attempts_le (first : Bool) (evs : List PEvent)
    (p : PlayerState) : (runAsset first evs p).attempts ≤ 5 := by
  unfold runAsset
  apply attempts_runPlayer_le
  have h1 := attempts_onCanPlay_le first (resetPlayer p)
  have h0 : (resetPlayer p).attempts = 0 := rfl
  omega

/-- C3: with automatic playback blocked throughout, the player makes
exactly five automatic attempts (the canplay attempt plus the retries of
the 1 s interval), then the retry interval is unregistered — a further
tick changes nothing — and the user-actionable press-to-play error text
is surfaced; over any asset lifetime, no more than five automatic
attempts ever occur. -/
theorem autoplay_retry_bounded_and_stops :
    blockedRun.attempts = 5 ∧
    blockedRun.autoplayInterval = none ∧
    blockedRun.errorMsg = some autoplayBlockedMsg ∧
    (∀ b, intervalTick b blockedRun = blockedRun) ∧
    (∀ first evs p, (runAsset first evs p).attempts ≤ 5) ∧
    autoplayRetryPeriodMs = 1000 ∧
    (onCanPlay true (resetPlayer initialPlayer)).autoplayInterval
      = some autoplayRetryPeriodMs := by
  refine ⟨by decide, by decide, by decide, ?_, ?_, rfl, by decide⟩
  · intro b
    cases b <;> decide
  · exact fun first evs p => runAsset_attempts_le first evs p

/-- C6: the frame-sampling loop runs at the fixed 25 s period, is armed
exactly while the camera is ready and a user identity exists, ticks
independently of the recording and pressing flags (the tick commutes with
any setting of those flags), and a failed frame capture or a failed
upload only updates the status or error text — the interval registration
is never touched by a tick, so the next tick still occurs. -/
theorem frame_loop_period_and_failure_isolation
    (s : CCState) (hf pk uk r p : Bool) (now : Nat) :
    imageUploadPeriodMs = 25000 ∧
    (uploadTick hf pk uk now s).imageUploadInterval = s.imageUploadInterval ∧
    (uploadTick hf pk uk now { s with isRecording := r, isPressing := p }
      = { uploadTick hf pk uk now s with isRecording := r, isPressing := p }) ∧
    (s.isVideoStopped = false → s.cameraReady = true →
      s.userId.isSome = true → s.webcamPresent = true →
      (uploadEffectSetup s).imageUploadInterval = some imageUploadPeriodMs) ∧
    (s.webcamPresent = true → s.userId.isSome = true →
      uploadTick false pk uk now s
        = { s with
              statusMessage := "Camera feed disrupted. Reconnecting..." }) ∧
    (s.webcamPresent = true → s.userId.isSome = true →
      (uploadTick true true false now s).error = some "Upload error" ∧
      (uploadTick true true false now s).uploadCount = s.uploadCount ∧
      (uploadTick true true false now s).imageUploadInterval
        = s.imageUploadInterval) := by
  refine ⟨rfl, ?_, ?_, ?_, ?_, ?_⟩
  · unfold uploadTick
    split
    · rfl
    · split
      · split
        · split <;> rfl
        · rfl
      · rfl
  · cases hw : s.webcamPresent <;> cases hu : s.userId <;>
      cases hf <;> cases pk <;> cases uk <;> simp [uploadTick, hw, hu]
  · intro h1 h2 h3 h4
    simp [uploadEffectSetup, h1, h2, h3, h4, imageUploadPeriodMs]
  · intro h1 h2
    have h3 : s.userId.isNone = false := by
      cases hu : s.userId <;> simp_all
    simp [uploadTick, h1, h3]
  · intro h1 h2
    have h3 : s.userId.isNone = false := by
      cases hu : s.userId <;> simp_all
    simp [uploadTick, h1, h3]

/-- C6 witness: one tick with a failed upload, and the setup, on the
concrete idle state. -/
theorem frame_loop_period_and_failure_isolation_witness :
    imageUploadPeriodMs = 25000 ∧
    (uploadTick true true false 1 sampleIdle).imageUploadInterval
      = sampleIdle.imageUploadInterval ∧
    (uploadTick true true false 1
        { sampleIdle with isRecording := true, isPressing := true }
      = { uploadTick true true false 1 sampleIdle with
            isRecording := true, isPressing := true }) ∧
    (uploadEffectSetup sampleIdle).imageUploadInterval
      = some imageUploadPeriodMs ∧
    uploadTick false true false 1 sampleIdle
      = { sampleIdle with
            statusMessage := "Camera feed disrupted. Reconnecting..." } ∧
    (uploadTick true true false 1 sampleIdle).error = some "Upload error" ∧
    (uploadTick true true false 1 sampleIdle).uploadCount
      = sampleIdle.uploadCount ∧
    (uploadTick true true false 1 sampleIdle).imageUploadInterval
      = sampleIdle.imageUploadInterval := by
  obtain ⟨a, b, c, d, e, f⟩ :=
    frame_loop_period_and_failure_isolation sampleIdle true true false
      true true 1
  obtain ⟨e1, e2, e3⟩ := f rfl rfl
  refine ⟨a, b, c, d rfl rfl rfl rfl, ?_, e1, e2, e3⟩
  exact (frame_loop_period_and_failure_isolation sampleIdle false true false
      true true 1).2.2.2.2.1 rfl rfl

end Foresight
